import Mathlib

/-!
Verification of the techstock Resource Query & Aggregation Engine.

This file gives a shallow embedding, in Lean 4, of the core logic of the
repository: the filter/sort/pagination compiler and resource store
(`src/infrastructure/repositories/postgres_resource_repository.rs`,
`find_all` and the `count_by_*` queries), the pagination value objects
(`src/domain/value_objects.rs`), the dashboard aggregation engine
(`src/application/use_cases/dashboard_use_cases.rs`), the resource
use cases (`src/application/use_cases/resource_use_cases.rs`) and the
tag suggestion handler (`src/presentation/handlers/tags_handler.rs`).

Modelling conventions:
- The Postgres table of resources is a `List Resource`; each SQL query
  executed by the code is given its semantics over that list.
- `i64` ids and timestamps are `Int`; `u32`/`u64` quantities are `Nat`,
  with an explicit `% 2 ^ 32` wherever the Rust code performs 32-bit
  arithmetic that can wrap (release-build wrapping semantics).
- SQL `ILIKE '%x%'` (with `x` a plain value, no pattern metacharacters)
  is modelled as case-insensitive substring containment, `ILIKE 'x'` as
  case-insensitive equality and `ILIKE 'x%'` as case-insensitive
  prefix; the single-quote doubling done by the code is the standard
  SQL literal escaping and is semantically transparent.
- Lowercasing is ASCII (`Char.toLower`), matching Rust/Postgres on the
  ASCII range.
- `tags_json` is, everywhere this system writes it, a JSON object with
  string values; it is modelled as an association list
  `List (String × String)`.
- String processing (`split`, `trim`, lowercasing) is implemented over
  `List Char` so that all definitions evaluate inside the kernel.
-/

/-! ### Character-list string utilities -/

/-- ASCII lowercasing of a string (Rust `to_lowercase` / SQL `lower`
restricted to ASCII). -/
def strLower (s : String) : String :=
  String.mk (s.data.map Char.toLower)

/-- `containsSeq pat l` is true iff `pat` occurs as a contiguous
subsequence of `l` (Rust `str::contains`, SQL `ILIKE '%pat%'`). -/
def containsSeq (pat : List Char) : List Char → Bool
  | [] => pat.isEmpty
  | c :: t => pat.isPrefixOf (c :: t) || containsSeq pat t

/-- Case-sensitive substring containment. -/
def strContains (s pat : String) : Bool :=
  containsSeq pat.data s.data

/-- Case-insensitive substring containment: the semantics of
`col ILIKE '%pat%'` for a metacharacter-free `pat`. -/
def strContainsCI (s pat : String) : Bool :=
  containsSeq (strLower pat).data (strLower s).data

/-- Lexicographic comparison of character lists by code point; agrees
with Rust `String` ordering (UTF-8 byte order equals code-point
order). -/
def clistLe : List Char → List Char → Bool
  | [], _ => true
  | _ :: _, [] => false
  | a :: as, b :: bs =>
    if a.toNat < b.toNat then true
    else if b.toNat < a.toNat then false
    else clistLe as bs

/-- Lexicographic string comparison. -/
def strLe (a b : String) : Bool :=
  clistLe a.data b.data

theorem clistLe_total : ∀ xs ys : List Char,
    clistLe xs ys = true ∨ clistLe ys xs = true := by
  intro xs
  induction xs with
  | nil => intro ys; left; rfl
  | cons a as ih =>
    intro ys
    cases ys with
    | nil => right; rfl
    | cons b bs =>
      simp only [clistLe]
      rcases Nat.lt_trichotomy a.toNat b.toNat with h | h | h
      · left; simp [h]
      · have hba : ¬ b.toNat < a.toNat := by omega
        have hab : ¬ a.toNat < b.toNat := by omega
        rcases ih bs with h2 | h2
        · left; simp [hab, hba, h2]
        · right; simp [hab, hba, h2]
      · right; simp [h]

theorem clistLe_trans : ∀ xs ys zs : List Char,
    clistLe xs ys = true → clistLe ys zs = true → clistLe xs zs = true := by
  intro xs
  induction xs with
  | nil => intro ys zs _ _; rfl
  | cons a as ih =>
    intro ys zs h1 h2
    cases ys with
    | nil => simp [clistLe] at h1
    | cons b bs =>
      cases zs with
      | nil => simp [clistLe] at h2
      | cons c cs =>
        simp only [clistLe] at h1 h2 ⊢
        by_cases hab : a.toNat < b.toNat <;>
          by_cases hbc : b.toNat < c.toNat <;>
          by_cases hac : a.toNat < c.toNat <;>
          simp [hab, hbc, hac] at h1 h2 ⊢ <;>
          try omega
        · obtain ⟨hba, h1c⟩ := h1
          obtain ⟨hcb, h2c⟩ := h2
          exact ⟨by omega, ih bs cs h1c h2c⟩

theorem strLe_total (a b : String) : strLe a b = true ∨ strLe b a = true :=
  clistLe_total a.data b.data

theorem strLe_trans {a b c : String} (h1 : strLe a b = true)
    (h2 : strLe b c = true) : strLe a c = true :=
  clistLe_trans a.data b.data c.data h1 h2

/-! ### A computable sort and its specification -/

/-- The proposition underlying a boolean comparator. -/
def boolRel {α : Type} (le : α → α → Bool) : α → α → Prop :=
  fun a b => le a b = true

instance {α : Type} (le : α → α → Bool) : DecidableRel (boolRel le) :=
  fun a b => instDecidableEqBool (le a b) true

/-- Sorting by a boolean comparator (models Rust `sort_by` and SQL
`ORDER BY`; the claims proved below depend only on the sortedness and
multiset of the output, which any correct implementation shares). -/
def sortByLe {α : Type} (le : α → α → Bool) (l : List α) : List α :=
  List.insertionSort (boolRel le) l

/-- Totality of a boolean comparator. -/
def totalOf {α : Type} (le : α → α → Bool) : Prop :=
  ∀ a b, le a b = true ∨ le b a = true

/-- Transitivity of a boolean comparator. -/
def transOf {α : Type} (le : α → α → Bool) : Prop :=
  ∀ a b c, le a b = true → le b c = true → le a c = true

theorem sortByLe_perm {α : Type} (le : α → α → Bool) (l : List α) :
    (sortByLe le l).Perm l :=
  List.perm_insertionSort (boolRel le) l

theorem sortByLe_pairwise {α : Type} (le : α → α → Bool)
    (htot : totalOf le) (htr : transOf le) (l : List α) :
    List.Pairwise (boolRel le) (sortByLe le l) := by
  haveI : IsTotal α (boolRel le) := ⟨htot⟩
  haveI : IsTrans α (boolRel le) := ⟨fun a b c => htr a b c⟩
  exact List.sorted_insertionSort (boolRel le) l

/-! ### Domain value objects (`src/domain/value_objects.rs`) -/

/-- `SortDirection` (serde: `asc` / `desc`). -/
inductive SortDirection where
  | Ascending
  | Descending
deriving DecidableEq

/-- `SortParams`: optional field name and direction. -/
structure SortParams where
  field : Option String
  direction : Option SortDirection
deriving DecidableEq

/-- `PaginationParams`: raw, caller-supplied 1-based page and size.
The Rust fields are `Option<u32>`; modelled as `Option Nat` (theorems
about 32-bit wrapping carry an explicit `< 2 ^ 32` bound). -/
structure PaginationParams where
  page : Option Nat
  size : Option Nat
deriving DecidableEq

/-- `PaginationParams::page()`: `self.page.unwrap_or(1).max(1)`. -/
def PaginationParams.pageNorm (p : PaginationParams) : Nat :=
  max (p.page.getD 1) 1

/-- `PaginationParams::size()`: `self.size.unwrap_or(20).clamp(1, 100000)`. -/
def PaginationParams.sizeNorm (p : PaginationParams) : Nat :=
  min (max (p.size.getD 20) 1) 100000

/-- Wrapping 32-bit subtraction `a - b` for `a, b < 2 ^ 32` (Rust `u32`
subtraction in release builds). -/
def u32Sub (a b : Nat) : Nat :=
  (a + (2 ^ 32 - b % 2 ^ 32)) % 2 ^ 32

/-- Wrapping 32-bit multiplication (Rust `u32` multiplication in
release builds). -/
def u32Mul (a b : Nat) : Nat :=
  (a * b) % 2 ^ 32

/-- `Pagination`: the result-side pagination record. -/
structure Pagination where
  page : Nat
  size : Nat
  total : Nat
  total_pages : Nat
deriving DecidableEq

/-- `Pagination::new(page, size, total)`. The Rust code computes
`total_pages` as `((total as f64) / (size as f64)).ceil() as u32`;
modelled as the exact ceiling division it implements (bit-identical for
all magnitudes this system produces; `total_pages` is not the subject
of any claim). No normalization of `page`/`size` is performed. -/
def Pagination.new (page size total : Nat) : Pagination :=
  { page := page, size := size, total := total,
    total_pages := (total + size - 1) / size }

/-- `Pagination::offset()`: `((self.page - 1) * self.size) as u64`,
computed in `u32` arithmetic; `self.page - 1` wraps when `page = 0`
because `Pagination::new` does not normalize its arguments. -/
def Pagination.offset (p : Pagination) : Nat :=
  u32Mul (u32Sub p.page 1) p.size

/-- `ResourceFilters`. -/
structure ResourceFilters where
  resource_type : Option String
  location : Option String
  environment : Option String
  vendor : Option String
  subscription_id : Option Int
  resource_group_id : Option Int
  search : Option String
  tags : Option String
deriving DecidableEq

/-- `ResourceFilters::default()`: all fields `None`. -/
def ResourceFilters.default : ResourceFilters :=
  ⟨none, none, none, none, none, none, none, none⟩

/-! ### Domain entities (`src/domain/entities/resource.rs`) -/

/-- `Resource`. Timestamps are modelled as `Int` (microseconds or any
other fixed encoding of `DateTime<Utc>`; only their ordering matters).
`tags_json` is the JSON tag object as an association list. -/
structure Resource where
  id : Int
  azure_id : Option String
  name : String
  resource_type : String
  kind : Option String
  location : String
  subscription_id : Int
  resource_group_id : Int
  tags_json : List (String × String)
  extended_location : Option String
  vendor : Option String
  environment : Option String
  provisioner : Option String
  created_at : Int
  updated_at : Int
deriving DecidableEq

/-- `Subscription` (`src/domain/entities/subscription.rs`). -/
structure Subscription where
  id : Int
  name : String
  tenant_id : Option String
deriving DecidableEq

/-- `ResourceGroup` (`src/domain/entities/resource_group.rs`). -/
structure ResourceGroup where
  id : Int
  name : String
  subscription_id : Int
deriving DecidableEq

/-- `UpdateResourceRequest`. -/
structure UpdateResourceRequest where
  azure_id : Option String
  name : Option String
  resource_type : Option String
  kind : Option String
  location : Option String
  subscription_id : Option Int
  resource_group_id : Option Int
  tags : Option (List (String × String))
  extended_location : Option String
  vendor : Option String
  environment : Option String
  provisioner : Option String
deriving DecidableEq

/-- `DomainError` (`src/domain/errors.rs`); only the constructors and
fields, message formatting elided where it is a `format!` of the
arguments. -/
inductive DomainError where
  | NotFound (entity : String) (id : String)
  | AlreadyExists (entity : String) (field : String) (value : String)
  | InvalidInput (message : String)
  | BusinessRuleViolation (message : String)
  | DatabaseError (message : String)
  | InternalError (message : String)
deriving DecidableEq

/-! ### Splitting and trimming (Rust `str::split` / `str::trim`) -/

/-- Rust `str::split(sep)`: splits on every occurrence, keeping empty
pieces; an empty input yields one empty piece. -/
def splitListOn (sep : Char) : List Char → List (List Char)
  | [] => [[]]
  | c :: t =>
    if c = sep then [] :: splitListOn sep t
    else
      match splitListOn sep t with
      | [] => [[c]]
      | h :: r => (c :: h) :: r

/-- Rust `str::trim` (ASCII whitespace). -/
def trimChars (l : List Char) : List Char :=
  ((l.dropWhile Char.isWhitespace).reverse.dropWhile Char.isWhitespace).reverse

/-! ### The filter compiler: WHERE clause semantics
(`postgres_resource_repository.rs::find_all`, lines 113-169) -/

/-- Parsing of the `tags` filter string (lines 150-164): split on `,`,
trim each token, split the token on `:`; keep `(key, value)` (each
trimmed) iff the split has exactly two parts (exactly one `:`),
silently dropping malformed tokens. -/
def parseTagPairs (tags_search : String) : List (String × String) :=
  (splitListOn ',' tags_search.data).filterMap fun tag_pair =>
    match splitListOn ':' (trimChars tag_pair) with
    | [k, v] => some (String.mk (trimChars k), String.mk (trimChars v))
    | _ => none

/-- One tag predicate
`tags_json ? 'k' AND tags_json->>'k' ILIKE '%v%'`: the resource has the
key and the stored value contains the given value case-insensitively. -/
def tagPairMatch (r : Resource) (p : String × String) : Bool :=
  match r.tags_json.lookup p.1 with
  | some v => strContainsCI v p.2
  | none => false

/-- The `search` predicate (lines 140-148): case-insensitive substring
match over name, type, azure_id, location, vendor, environment (NULLs
coalesced to the empty string), OR-combined. -/
def searchMatch (r : Resource) (q : String) : Bool :=
  strContainsCI r.name q || strContainsCI r.resource_type q ||
  strContainsCI (r.azure_id.getD "") q || strContainsCI r.location q ||
  strContainsCI (r.vendor.getD "") q ||
  strContainsCI (r.environment.getD "") q

/-- The conjunction of WHERE conditions built by `find_all`
(lines 113-169, applied by both the COUNT query and the page query):
- `resource_type`: `type ILIKE '%t%'` (case-insensitive substring);
- `location` / `environment` / `vendor`: exact equality (`NULL = 'x'`
  is false, hence `none` never matches a `some` filter);
- `subscription_id` / `resource_group_id`: exact equality;
- `search`: see `searchMatch`;
- `tags`: the parsed pairs OR-combined; when every token is malformed
  no condition is pushed at all (line 166: `if !tag_conditions.is_empty()`),
  so the tags filter imposes no constraint. -/
def matchesFilters (f : ResourceFilters) (r : Resource) : Bool :=
  (match f.resource_type with
   | some t => strContainsCI r.resource_type t
   | none => true) &&
  (match f.location with
   | some l => r.location == l
   | none => true) &&
  (match f.environment with
   | some e => r.environment == some e
   | none => true) &&
  (match f.vendor with
   | some v => r.vendor == some v
   | none => true) &&
  (match f.subscription_id with
   | some sid => r.subscription_id == sid
   | none => true) &&
  (match f.resource_group_id with
   | some gid => r.resource_group_id == gid
   | none => true) &&
  (match f.search with
   | some q => searchMatch r q
   | none => true) &&
  (match f.tags with
   | some ts =>
     let pairs := parseTagPairs ts
     if pairs.isEmpty then true else pairs.any (tagPairMatch r)
   | none => true)

/-! ### ORDER BY semantics -/

/-- The value of one sortable column; integer columns (ids,
timestamps), text columns, and nullable text columns. -/
inductive SortValue where
  | int (i : Int)
  | str (s : String)
  | optStr (s : Option String)
deriving DecidableEq

/-- Constructor tag, used only to make the comparison total across
constructors (a single query always compares values of one column, so
the cross-constructor order is never observable). -/
def svTag : SortValue → Nat
  | .int _ => 0
  | .str _ => 1
  | .optStr _ => 2

/-- Ascending comparison of nullable text: Postgres orders NULLs last
under `ASC`, so `none` is greatest. -/
def optStrLe : Option String → Option String → Bool
  | none, none => true
  | none, some _ => false
  | some _, none => true
  | some a, some b => strLe a b

theorem optStrLe_total : ∀ a b, optStrLe a b = true ∨ optStrLe b a = true := by
  intro a b
  cases a <;> cases b <;> try first | (left; rfl) | (right; rfl)
  exact strLe_total _ _

theorem optStrLe_trans : ∀ a b c, optStrLe a b = true → optStrLe b c = true →
    optStrLe a c = true := by
  intro a b c h1 h2
  cases a <;> cases b <;> cases c <;>
    first
      | rfl
      | exact Bool.noConfusion h1
      | exact Bool.noConfusion h2
      | exact strLe_trans h1 h2

/-- Ascending comparison of column values. Text is compared by code
point (`C` collation / Rust byte order). -/
def svLe : SortValue → SortValue → Bool
  | .int a, .int b => decide (a ≤ b)
  | .str a, .str b => strLe a b
  | .optStr a, .optStr b => optStrLe a b
  | x, y => Nat.ble (svTag x) (svTag y)

theorem svLe_total : ∀ x y : SortValue, svLe x y = true ∨ svLe y x = true := by
  intro x y
  cases x <;> cases y <;> try first | (left; rfl) | (right; rfl)
  case int.int a b =>
    rcases Int.le_total a b with h | h
    · left; exact decide_eq_true h
    · right; exact decide_eq_true h
  case str.str a b => exact strLe_total a b
  case optStr.optStr a b => exact optStrLe_total a b

theorem svLe_trans : ∀ x y z : SortValue,
    svLe x y = true → svLe y z = true → svLe x z = true := by
  intro x y z h1 h2
  cases x <;> cases y <;> cases z <;>
    try first
      | rfl
      | exact Bool.noConfusion h1
      | exact Bool.noConfusion h2
  case int.int.int a b c =>
    simp only [svLe, decide_eq_true_eq] at h1 h2 ⊢
    omega
  case str.str.str a b c => exact strLe_trans h1 h2
  case optStr.optStr.optStr a b c => exact optStrLe_trans a b c h1 h2

/-- The columns of the `resource` table accepted as sort fields
(`tags_json`, a `jsonb` column, is outside the model; a query sorting
by it is treated like an unknown column). An unknown column makes the
interpolated SQL fail, surfacing as a `DatabaseError`. -/
def validSortColumn (fld : String) : Bool :=
  fld ∈ ["id", "azure_id", "name", "type", "kind", "location",
         "subscription_id", "resource_group_id", "extended_location",
         "vendor", "environment", "provisioner", "created_at", "updated_at"]

/-- The value of column `fld` of a resource row. -/
def sortValue (fld : String) (r : Resource) : SortValue :=
  if fld = "id" then .int r.id
  else if fld = "azure_id" then .optStr r.azure_id
  else if fld = "name" then .str r.name
  else if fld = "type" then .str r.resource_type
  else if fld = "kind" then .optStr r.kind
  else if fld = "location" then .str r.location
  else if fld = "subscription_id" then .int r.subscription_id
  else if fld = "resource_group_id" then .int r.resource_group_id
  else if fld = "extended_location" then .optStr r.extended_location
  else if fld = "vendor" then .optStr r.vendor
  else if fld = "environment" then .optStr r.environment
  else if fld = "provisioner" then .optStr r.provisioner
  else if fld = "created_at" then .int r.created_at
  else .int r.updated_at

/-- `ORDER BY {sort_field} {sort_direction}` (lines 171-176 and
218): field defaults to `created_at`, direction to ascending
(`unwrap_or_default`); `DESC` is the exact reversal of `ASC`
(NULLs first under `DESC`). -/
def rowLe (sort : SortParams) (a b : Resource) : Bool :=
  let fld := sort.field.getD "created_at"
  match sort.direction.getD SortDirection.Ascending with
  | .Ascending => svLe (sortValue fld a) (sortValue fld b)
  | .Descending => svLe (sortValue fld b) (sortValue fld a)

theorem rowLe_total (sort : SortParams) : totalOf (rowLe sort) := by
  intro a b
  unfold rowLe
  cases hd : sort.direction.getD SortDirection.Ascending
  · exact svLe_total _ _
  · exact svLe_total _ _

theorem rowLe_trans (sort : SortParams) : transOf (rowLe sort) := by
  intro a b c h1 h2
  unfold rowLe at h1 h2 ⊢
  cases hd : sort.direction.getD SortDirection.Ascending <;> rw [hd] at h1 h2
  · exact svLe_trans _ _ _ h1 h2
  · exact svLe_trans _ _ _ h2 h1

/-- The relevance bucket of the search `CASE` expression
(lines 200-206): 1 for `name ILIKE 'q'` (case-insensitive equality),
2 for `name ILIKE 'q%'`, 3 for `name ILIKE '%q%'`, else 4. -/
def bucket (q : String) (r : Resource) : Nat :=
  let n := strLower r.name
  let ql := strLower q
  if n = ql then 1
  else if ql.data.isPrefixOf n.data then 2
  else if containsSeq ql.data n.data then 3
  else 4

/-- The composite search ordering (lines 200-207): relevance bucket
first, then the requested sort field and direction. -/
def searchLe (q : String) (sort : SortParams) (a b : Resource) : Bool :=
  decide (bucket q a < bucket q b) ||
  (decide (bucket q a = bucket q b) && rowLe sort a b)

theorem searchLe_total (q : String) (sort : SortParams) :
    totalOf (searchLe q sort) := by
  intro a b
  simp only [searchLe, Bool.or_eq_true, Bool.and_eq_true, decide_eq_true_eq]
  rcases Nat.lt_trichotomy (bucket q a) (bucket q b) with h | h | h
  · exact Or.inl (Or.inl h)
  · rcases rowLe_total sort a b with h2 | h2
    · exact Or.inl (Or.inr ⟨h, h2⟩)
    · exact Or.inr (Or.inr ⟨h.symm, h2⟩)
  · exact Or.inr (Or.inl h)

theorem searchLe_trans (q : String) (sort : SortParams) :
    transOf (searchLe q sort) := by
  intro a b c h1 h2
  simp only [searchLe, Bool.or_eq_true, Bool.and_eq_true,
    decide_eq_true_eq] at h1 h2 ⊢
  rcases h1 with h1 | ⟨h1e, h1r⟩ <;> rcases h2 with h2 | ⟨h2e, h2r⟩
  · left; omega
  · left; omega
  · left; omega
  · right; exact ⟨by omega, rowLe_trans sort a b c h1r h2r⟩

/-! ### The resource store: `find_all`
(`postgres_resource_repository.rs`, lines 103-250) -/

/-- The row offset `((page - 1) * size) as i64` (line 111): `u32`
arithmetic, then widened. `page` is already normalized (`≥ 1`), so the
subtraction cannot wrap, but the multiplication can. -/
def findAllOffset (pagination : PaginationParams) : Nat :=
  u32Mul (u32Sub pagination.pageNorm 1) pagination.sizeNorm

/-- `find_all(pagination, filters, sort)`. Normalizes pagination,
filters the table with `matchesFilters` (the COUNT query and the page
query share this WHERE clause), counts the matches, orders by the
search-relevance bucket (when `search` is present) followed by the
requested field/direction, and applies `LIMIT size OFFSET offset`.
An invalid sort column makes the page query fail (`DatabaseError`). -/
def find_all (db : List Resource) (pagination : PaginationParams)
    (filters : ResourceFilters) (sort : SortParams) :
    Except DomainError (List Resource × Pagination) :=
  let page := pagination.pageNorm
  let size := pagination.sizeNorm
  let offset := findAllOffset pagination
  let filtered := db.filter (matchesFilters filters)
  let total := filtered.length
  if validSortColumn (sort.field.getD "created_at") then
    let sorted :=
      match filters.search with
      | some q => sortByLe (searchLe q sort) filtered
      | none => sortByLe (rowLe sort) filtered
    .ok ((sorted.drop offset).take size, Pagination.new page size total)
  else
    .error (.DatabaseError "Failed to fetch resources")

/-! ### Grouped counts (`count_by_*` queries and the in-memory
HashMap counting of `dashboard_use_cases.rs`) -/

/-- Comparator ordering `(label, count)` pairs by count descending
(SQL `ORDER BY count DESC`, Rust `sort_by(|a, b| b.1.cmp(&a.1))`). -/
def countDescLe (a b : String × Nat) : Bool :=
  decide (b.2 ≤ a.2)

theorem countDescLe_total : totalOf countDescLe := by
  intro a b
  simp only [countDescLe, decide_eq_true_eq]
  omega

theorem countDescLe_trans : transOf countDescLe := by
  intro a b c h1 h2
  simp only [countDescLe, decide_eq_true_eq] at h1 h2 ⊢
  omega

/-- Grouped occurrence counts of a list of labels, ordered by count
descending. This is the common semantics of
`SELECT l, COUNT(*) ... GROUP BY l ORDER BY count DESC` and of the
HashMap-count-then-sort code in `dashboard_use_cases.rs` (both leave
the relative order of equal counts unspecified; the canonical order
chosen here satisfies every property the claims state). -/
def groupCountsDesc (labels : List String) : List (String × Nat) :=
  sortByLe countDescLe (labels.dedup.map (fun k => (k, labels.count k)))

/-- `count_by_type`: `SELECT type, COUNT(*) FROM resource GROUP BY type
ORDER BY count DESC`. -/
def count_by_type (db : List Resource) : List (String × Nat) :=
  groupCountsDesc (db.map (fun r => r.resource_type))

/-- `count_by_location`. -/
def count_by_location (db : List Resource) : List (String × Nat) :=
  groupCountsDesc (db.map (fun r => r.location))

/-- `count_by_environment`: groups by the nullable `environment`
column (`GROUP BY environment`, all NULLs in one group) and labels the
NULL group `'Unknown'` via `COALESCE`. -/
def count_by_environment (db : List Resource) : List (String × Nat) :=
  sortByLe countDescLe (((db.map (fun r => r.environment)).dedup).map
    (fun e => (e.getD "Unknown", (db.map (fun r => r.environment)).count e)))

/-- What it means for `out` to be the grouped counts of `labels`,
sorted by count descending: distinct keys, each entry carrying the
exact (positive) occurrence count of its key, every label represented,
and counts weakly decreasing. -/
def IsGroupCountsDesc (labels : List String) (out : List (String × Nat)) : Prop :=
  (out.map Prod.fst).Nodup ∧
  (∀ p ∈ out, p.2 = labels.count p.1 ∧ 0 < p.2) ∧
  (∀ l ∈ labels, l ∈ out.map Prod.fst) ∧
  List.Pairwise (fun a b : String × Nat => b.2 ≤ a.2) out

theorem groupCountsDesc_spec (labels : List String) :
    IsGroupCountsDesc labels (groupCountsDesc labels) := by
  have hperm : (groupCountsDesc labels).Perm
      (labels.dedup.map (fun k => (k, labels.count k))) :=
    sortByLe_perm _ _
  have hkeys : ((labels.dedup.map (fun k => (k, labels.count k))).map
      Prod.fst) = labels.dedup := by
    rw [List.map_map]
    exact List.map_id _
  refine ⟨?_, ?_, ?_, ?_⟩
  · have := (hperm.map Prod.fst).nodup_iff
    rw [this, hkeys]
    exact labels.nodup_dedup
  · intro p hp
    have hp2 := hperm.mem_iff.mp hp
    obtain ⟨k, hk, hkp⟩ := List.mem_map.mp hp2
    subst hkp
    refine ⟨rfl, ?_⟩
    exact List.count_pos_iff.mpr (List.mem_dedup.mp hk)
  · intro l hl
    have hld : l ∈ labels.dedup := List.mem_dedup.mpr hl
    have : (l, labels.count l) ∈
        labels.dedup.map (fun k => (k, labels.count k)) :=
      List.mem_map_of_mem _ hld
    have hm := hperm.mem_iff.mpr this
    exact List.mem_map_of_mem Prod.fst hm
  · have hs := sortByLe_pairwise countDescLe countDescLe_total
      countDescLe_trans (labels.dedup.map (fun k => (k, labels.count k)))
    exact hs.imp (fun h => by
      simpa [boolRel, countDescLe, decide_eq_true_eq] using h)

theorem IsGroupCountsDesc_of_perm {labels labels' : List String}
    {out : List (String × Nat)} (hp : labels.Perm labels')
    (h : IsGroupCountsDesc labels out) : IsGroupCountsDesc labels' out := by
  obtain ⟨h1, h2, h3, h4⟩ := h
  refine ⟨h1, ?_, ?_, h4⟩
  · intro p hpm
    obtain ⟨hc, hpos⟩ := h2 p hpm
    exact ⟨hc.trans (hp.count_eq p.1), hpos⟩
  · intro l hl
    exact h3 l (hp.mem_iff.mpr hl)

/-! ### Dashboard aggregation
(`src/application/use_cases/dashboard_use_cases.rs`) -/

/-- `DashboardFiltersDto`. The handler
(`dashboard_handler.rs`) also populates a `location` field (cleaning
empty strings to `None`); the use case reads only `subscription_id`,
`resource_group_id` and `environment`, so `location` and `time_range`
are carried but never consulted. -/
structure DashboardFiltersDto where
  subscription_id : Option Int
  resource_group_id : Option Int
  location : Option String
  environment : Option String
  time_range : Option String
deriving DecidableEq

/-- The `ResourceFilters` the dashboard use case builds from its DTO
(lines 169-178, 215-224, 257-266): only environment, subscription and
resource group are carried over. -/
def dashResourceFilters (f : DashboardFiltersDto) : ResourceFilters :=
  { resource_type := none, location := none, environment := f.environment,
    vendor := none, subscription_id := f.subscription_id,
    resource_group_id := f.resource_group_id, search := none, tags := none }

/-- The pagination the dashboard passes to `find_all`:
`page = Some(1), size = Some(100000)` ("large number to get all"). -/
def dashPagination : PaginationParams :=
  { page := some 1, size := some 100000 }

/-- The sort the dashboard passes to `find_all`. -/
def dashSort : SortParams :=
  { field := some "created_at", direction := some SortDirection.Descending }

/-- `get_filtered_resource_type_counts` (lines 158-207): only when
`subscription_id` or `resource_group_id` is set does it fetch the
filtered resources (first 100000) and count in memory; otherwise it
returns the unfiltered global `count_by_type` result. -/
def get_filtered_resource_type_counts (db : List Resource)
    (f : DashboardFiltersDto) : Except DomainError (List (String × Nat)) :=
  if f.subscription_id.isSome || f.resource_group_id.isSome then
    match find_all db dashPagination (dashResourceFilters f) dashSort with
    | .ok (rs, _) => .ok (groupCountsDesc (rs.map (fun r => r.resource_type)))
    | .error e => .error e
  else
    .ok (count_by_type db)

/-- `get_filtered_location_counts` (lines 209-250). -/
def get_filtered_location_counts (db : List Resource)
    (f : DashboardFiltersDto) : Except DomainError (List (String × Nat)) :=
  if f.subscription_id.isSome || f.resource_group_id.isSome then
    match find_all db dashPagination (dashResourceFilters f) dashSort with
    | .ok (rs, _) => .ok (groupCountsDesc (rs.map (fun r => r.location)))
    | .error e => .error e
  else
    .ok (count_by_location db)

/-- `get_filtered_environment_counts` (lines 252-292): in-memory
grouping uses `environment.unwrap_or("Unknown")`. -/
def get_filtered_environment_counts (db : List Resource)
    (f : DashboardFiltersDto) : Except DomainError (List (String × Nat)) :=
  if f.subscription_id.isSome || f.resource_group_id.isSome then
    match find_all db dashPagination (dashResourceFilters f) dashSort with
    | .ok (rs, _) =>
      .ok (groupCountsDesc (rs.map (fun r => r.environment.getD "Unknown")))
    | .error e => .error e
  else
    .ok (count_by_environment db)

/-- One entry of the per-type rollup. The source also carries an `f32`
`percentage` (`count / total_resources * 100`, `0.0` when the total is
zero) which is outside this integer model, as are the mock
floating-point health/cost figures. -/
structure ResourceTypeSummary where
  resource_type : String
  count : Nat
deriving DecidableEq

/-- One entry of the per-location rollup (percentage elided, see
`ResourceTypeSummary`). -/
structure LocationSummary where
  location : String
  count : Nat
deriving DecidableEq

/-- One entry of the per-environment rollup (percentage elided). -/
structure EnvironmentSummary where
  environment : String
  count : Nat
deriving DecidableEq

/-- `DashboardSummaryResponse` (counts and totals; the mock
`health_summary`/`cost_summary` and the `f32` percentages are outside
the model). -/
structure DashboardSummaryResponse where
  total_resources : Nat
  total_subscriptions : Nat
  total_resource_groups : Nat
  total_locations : Nat
  resource_types : List ResourceTypeSummary
  locations : List LocationSummary
  environments : List EnvironmentSummary
deriving DecidableEq

/-- `get_dashboard_summary(filters)` (lines 30-156). With filters
present each dimension goes through its `get_filtered_*` variant;
without, through the global `count_by_*` queries. `total_resources`
sums the per-type counts; `total_subscriptions` and
`total_resource_groups` always come from the repositories' global
`count_all` (lines 72-73); `total_locations` is the number of location
buckets. -/
def get_dashboard_summary (db : List Resource) (subs : List Subscription)
    (rgs : List ResourceGroup) (filters : Option DashboardFiltersDto) :
    Except DomainError DashboardSummaryResponse :=
  match (match filters with
         | some f => get_filtered_resource_type_counts db f
         | none => .ok (count_by_type db)) with
  | .error e => .error e
  | .ok resource_type_counts =>
    match (match filters with
           | some f => get_filtered_location_counts db f
           | none => .ok (count_by_location db)) with
    | .error e => .error e
    | .ok location_counts =>
      match (match filters with
             | some f => get_filtered_environment_counts db f
             | none => .ok (count_by_environment db)) with
      | .error e => .error e
      | .ok environment_counts =>
        .ok { total_resources := (resource_type_counts.map (fun p => p.2)).sum,
              total_subscriptions := subs.length,
              total_resource_groups := rgs.length,
              total_locations := location_counts.length,
              resource_types :=
                resource_type_counts.map (fun p => ⟨p.1, p.2⟩),
              locations := location_counts.map (fun p => ⟨p.1, p.2⟩),
              environments := environment_counts.map (fun p => ⟨p.1, p.2⟩) }

/-- Projection: `total_subscriptions` of a dashboard result. -/
def dashTotalSubs : Except DomainError DashboardSummaryResponse → Option Nat
  | .ok s => some s.total_subscriptions
  | .error _ => none

/-- Projection: `total_resource_groups` of a dashboard result. -/
def dashTotalRgs : Except DomainError DashboardSummaryResponse → Option Nat
  | .ok s => some s.total_resource_groups
  | .error _ => none

/-- Projection: the `(type, count)` pairs of a dashboard result. -/
def dashTypePairs :
    Except DomainError DashboardSummaryResponse → List (String × Nat)
  | .ok s => s.resource_types.map (fun t => (t.resource_type, t.count))
  | .error _ => []

/-- Projection: the `(location, count)` pairs of a dashboard result. -/
def dashLocationPairs :
    Except DomainError DashboardSummaryResponse → List (String × Nat)
  | .ok s => s.locations.map (fun t => (t.location, t.count))
  | .error _ => []

/-- Projection: the `(environment, count)` pairs of a dashboard
result. -/
def dashEnvPairs :
    Except DomainError DashboardSummaryResponse → List (String × Nat)
  | .ok s => s.environments.map (fun t => (t.environment, t.count))
  | .error _ => []

/-! ### Resource use cases
(`src/application/use_cases/resource_use_cases.rs`) -/

/-- `find_by_id`: `SELECT ... FROM resource WHERE id = $1`
(`fetch_optional`). -/
def find_by_id (db : List Resource) (id : Int) : Option Resource :=
  db.find? (fun r => r.id == id)

/-- Rust `name.trim().is_empty()`. -/
def trimEmpty (s : String) : Bool :=
  (trimChars s.data).isEmpty

/-- The column updates of the repository `UPDATE` statement
(lines 261-275 of `postgres_resource_repository.rs`): `COALESCE` on
name, type, location, tags_json, vendor, environment; `updated_at`
is set to `NOW()` (the `now` argument). All other columns are left
unchanged by this "simplified update". -/
def applyUpdate (r : Resource) (req : UpdateResourceRequest) (now : Int) :
    Resource :=
  { r with
    name := req.name.getD r.name,
    resource_type := req.resource_type.getD r.resource_type,
    location := req.location.getD r.location,
    tags_json := req.tags.getD r.tags_json,
    vendor := match req.vendor with | some v => some v | none => r.vendor,
    environment :=
      match req.environment with | some e => some e | none => r.environment,
    updated_at := now }

/-- The repository `update`: `UPDATE ... WHERE id = $1 RETURNING ...`
via `fetch_one` — with no matching row the query returns no rows and
surfaces as a `DatabaseError`. Returns the updated row and the new
table state. -/
def repo_update (db : List Resource) (id : Int) (req : UpdateResourceRequest)
    (now : Int) : Except DomainError (Resource × List Resource) :=
  match db.find? (fun r => r.id == id) with
  | some r =>
    .ok (applyUpdate r req now,
         db.map (fun x => if x.id == id then applyUpdate x req now else x))
  | none => .error (.DatabaseError "Failed to update resource")

/-- The repository `delete`: `DELETE FROM resource WHERE id = $1`
(succeeds even when nothing matches). -/
def repo_delete (db : List Resource) (id : Int) : List Resource :=
  db.filter (fun r => !(r.id == id))

/-- `ResourceUseCases::update_resource` (lines 51-77): existence check
first (`NotFound` before any delegation to the store), then
non-empty-after-trim validation of the present fields, then the
repository update. Returns the result together with the table state
after the call. -/
def update_resource (db : List Resource) (id : Int)
    (req : UpdateResourceRequest) (now : Int) :
    Except DomainError Resource × List Resource :=
  match find_by_id db id with
  | none => (.error (.NotFound "Resource" (toString id)), db)
  | some _ =>
    if match req.name with | some n => trimEmpty n | none => false then
      (.error (.InvalidInput "Resource name cannot be empty"), db)
    else if match req.resource_type with
            | some t => trimEmpty t | none => false then
      (.error (.InvalidInput "Resource type cannot be empty"), db)
    else if match req.location with
            | some l => trimEmpty l | none => false then
      (.error (.InvalidInput "Location cannot be empty"), db)
    else
      match repo_update db id req now with
      | .ok (r, db2) => (.ok r, db2)
      | .error e => (.error e, db)

/-- `ResourceUseCases::delete_resource` (lines 79-86): existence check
first, then the repository delete. -/
def delete_resource (db : List Resource) (id : Int) :
    Except DomainError Unit × List Resource :=
  match find_by_id db id with
  | none => (.error (.NotFound "Resource" (toString id)), db)
  | some _ => (.ok (), repo_delete db id)

/-! ### Tag suggestions
(`src/presentation/handlers/tags_handler.rs`, `get_tag_suggestions`) -/

/-- A suggestion entry; `display` is `format!("{}:{}", key, value)`. -/
structure TagSuggestion where
  key : String
  value : String
  display : String
deriving DecidableEq

/-- The scan over one resource's tag pairs (lines 92-110): a pair is
pushed iff its `key:value` string was not seen before and its
lower-cased key or value contains the (already lower-cased) search
term; the accumulator carries the suggestions and the seen set. -/
def collectTags (term : String) :
    List (String × String) → (List TagSuggestion × List String) →
    List TagSuggestion × List String
  | [], acc => acc
  | kv :: t, acc =>
    collectTags term t
      (if !(acc.2.contains (kv.1 ++ ":" ++ kv.2)) &&
          (strContains (strLower kv.1) term ||
           strContains (strLower kv.2) term) then
        (acc.1 ++ [⟨kv.1, kv.2, kv.1 ++ ":" ++ kv.2⟩],
         acc.2 ++ [kv.1 ++ ":" ++ kv.2])
      else acc)

/-- The scan over all resources. -/
def collectSuggestions (term : String) (resources : List Resource) :
    List TagSuggestion × List String :=
  resources.foldl (fun acc r => collectTags term r.tags_json acc) ([], [])

/-- Whether a suggestion is an exact match: lower-cased key or value
equal to the search term (lines 114-115). -/
def isExactTagMatch (term : String) (s : TagSuggestion) : Bool :=
  strLower s.key == term || strLower s.value == term

/-- The `sort_by` comparator (lines 113-122): exact matches first;
both-exact and both-partial tie-break by `display` (Rust `String`
ordering = code-point lexicographic). -/
def suggestionLe (term : String) (a b : TagSuggestion) : Bool :=
  if isExactTagMatch term a && !(isExactTagMatch term b) then true
  else if !(isExactTagMatch term a) && isExactTagMatch term b then false
  else strLe a.display b.display

/-- `get_tag_suggestions(q)`: lower-case the query (empty when
absent), scan all resources' tags deduplicating by `key:value`,
sort by relevance-then-display, truncate to 10. -/
def get_tag_suggestions (q : Option String) (resources : List Resource) :
    List TagSuggestion :=
  let search_term := strLower (q.getD "")
  (sortByLe (suggestionLe search_term)
    (collectSuggestions search_term resources).1).take 10

theorem suggestionLe_total (term : String) : totalOf (suggestionLe term) := by
  intro a b
  cases hae : isExactTagMatch term a <;> cases hbe : isExactTagMatch term b <;>
    simp [suggestionLe, hae, hbe]
  · exact strLe_total a.display b.display
  · exact strLe_total a.display b.display

theorem suggestionLe_trans (term : String) : transOf (suggestionLe term) := by
  intro a b c h1 h2
  cases hae : isExactTagMatch term a <;>
    cases hbe : isExactTagMatch term b <;>
    cases hce : isExactTagMatch term c <;>
    simp [suggestionLe, hae, hbe, hce] at h1 h2 ⊢ <;>
    try exact strLe_trans h1 h2

/-! ### Decidability instances and shared helper lemmas -/

instance {e a : Type} [DecidableEq e] [DecidableEq a] :
    DecidableEq (Except e a) :=
  fun x y =>
    match x, y with
    | .ok v, .ok w =>
      if h : v = w then isTrue (by rw [h])
      else isFalse (fun hh => by cases hh; exact h rfl)
    | .ok _, .error _ => isFalse (fun hh => by cases hh)
    | .error _, .ok _ => isFalse (fun hh => by cases hh)
    | .error v, .error w =>
      if h : v = w then isTrue (by rw [h])
      else isFalse (fun hh => by cases hh; exact h rfl)

instance (labels : List String) (out : List (String × Nat)) :
    Decidable (IsGroupCountsDesc labels out) := by
  unfold IsGroupCountsDesc
  infer_instance

/-- `find_all` as invoked by the dashboard (`created_at` is a valid
column, page 1, size 100000, offset 0) always succeeds, with the
page being the first 100000 sorted matches. -/
theorem find_all_dash_ok (db : List Resource) (f : DashboardFiltersDto) :
    find_all db dashPagination (dashResourceFilters f) dashSort =
      .ok ((sortByLe (rowLe dashSort)
              (db.filter (matchesFilters (dashResourceFilters f)))).take 100000,
           Pagination.new 1 100000
             (db.filter (matchesFilters (dashResourceFilters f))).length) := by
  have hpage : dashPagination.pageNorm = 1 := by decide
  have hsize : dashPagination.sizeNorm = 100000 := by decide
  have hoff : findAllOffset dashPagination = 0 := by decide
  have hvalid : validSortColumn (dashSort.field.getD "created_at") = true := by
    decide
  unfold find_all
  rw [hpage, hsize, hoff, hvalid]
  simp [dashResourceFilters]

/-- Grouping the first 100000 sorted matches is grouping all matches,
provided at most 100000 rows match. -/
theorem groupCounts_sorted_take (dim : Resource → String)
    (filtered : List Resource) (hlen : filtered.length ≤ 100000) :
    IsGroupCountsDesc (filtered.map dim)
      (groupCountsDesc
        (((sortByLe (rowLe dashSort) filtered).take 100000).map dim)) := by
  have hperm : (sortByLe (rowLe dashSort) filtered).Perm filtered :=
    sortByLe_perm _ _
  have hlen2 : (sortByLe (rowLe dashSort) filtered).length ≤ 100000 := by
    rw [hperm.length_eq]; exact hlen
  rw [List.take_of_length_le hlen2]
  exact IsGroupCountsDesc_of_perm (hperm.map dim) (groupCountsDesc_spec _)

/-- With a scope filter set, the three dimension projections of the
dashboard result are the in-memory grouped counts of the first 100000
filtered rows. -/
theorem dash_pairs_scoped (db : List Resource) (subs : List Subscription)
    (rgs : List ResourceGroup) (f : DashboardFiltersDto)
    (hs : (f.subscription_id.isSome || f.resource_group_id.isSome) = true) :
    dashTypePairs (get_dashboard_summary db subs rgs (some f)) =
      groupCountsDesc
        (((sortByLe (rowLe dashSort)
            (db.filter (matchesFilters (dashResourceFilters f)))).take
          100000).map (fun r => r.resource_type)) ∧
    dashLocationPairs (get_dashboard_summary db subs rgs (some f)) =
      groupCountsDesc
        (((sortByLe (rowLe dashSort)
            (db.filter (matchesFilters (dashResourceFilters f)))).take
          100000).map (fun r => r.location)) ∧
    dashEnvPairs (get_dashboard_summary db subs rgs (some f)) =
      groupCountsDesc
        (((sortByLe (rowLe dashSort)
            (db.filter (matchesFilters (dashResourceFilters f)))).take
          100000).map (fun r => r.environment.getD "Unknown")) := by
  unfold get_dashboard_summary get_filtered_resource_type_counts
    get_filtered_location_counts get_filtered_environment_counts
  dsimp only
  rw [hs]
  simp only [if_true, find_all_dash_ok db f]
  simp only [dashTypePairs, dashLocationPairs, dashEnvPairs, List.map_map]
  exact ⟨List.map_id _, List.map_id _, List.map_id _⟩

/-- Without a scope filter (`subscription_id` and `resource_group_id`
both absent), every dimension of a filtered dashboard request falls
back to the unfiltered global counts. -/
theorem dash_pairs_unscoped (db : List Resource) (subs : List Subscription)
    (rgs : List ResourceGroup) (f : DashboardFiltersDto)
    (h1 : f.subscription_id = none) (h2 : f.resource_group_id = none) :
    dashTypePairs (get_dashboard_summary db subs rgs (some f)) =
      count_by_type db ∧
    dashLocationPairs (get_dashboard_summary db subs rgs (some f)) =
      count_by_location db ∧
    dashEnvPairs (get_dashboard_summary db subs rgs (some f)) =
      count_by_environment db := by
  unfold get_dashboard_summary get_filtered_resource_type_counts
    get_filtered_location_counts get_filtered_environment_counts
  dsimp only
  rw [h1, h2]
  simp only [Option.isSome_none, Bool.or_self, Bool.false_eq_true, if_false,
    dashTypePairs, dashLocationPairs, dashEnvPairs, List.map_map]
  exact ⟨List.map_id _, List.map_id _, List.map_id _⟩

/-! ### Concrete fixtures for witnesses and counterexamples -/

/-- A minimal resource row; fields overridden per example. -/
def baseRes (i : Int) (nm : String) : Resource :=
  { id := i, azure_id := none, name := nm, resource_type := "vm",
    kind := none, location := "eu", subscription_id := 1,
    resource_group_id := 1, tags_json := [], extended_location := none,
    vendor := none, environment := none, provisioner := none,
    created_at := i, updated_at := i }

/-- An all-`None` update request. -/
def emptyUpdateReq : UpdateResourceRequest :=
  ⟨none, none, none, none, none, none, none, none, none, none, none, none⟩

/-! ### Claim C3 -/

/-- C3: for every `PaginationParams` input (page and size each possibly
absent, zero, or any u32 — here any natural), the normalized values
satisfy `page ≥ 1` and `1 ≤ size ≤ 100000`; an absent page yields 1 and
an absent size yields 20. -/
theorem claim_C3_pagination_normalized (pp : PaginationParams) :
    1 ≤ pp.pageNorm ∧ 1 ≤ pp.sizeNorm ∧ pp.sizeNorm ≤ 100000 ∧
    (pp.page = none → pp.pageNorm = 1) ∧
    (pp.size = none → pp.sizeNorm = 20) := by
  unfold PaginationParams.pageNorm PaginationParams.sizeNorm
  refine ⟨le_max_right _ 1, ?_, ?_, ?_, ?_⟩
  · omega
  · omega
  · intro h; rw [h]; rfl
  · intro h; rw [h]; rfl

/-- C3 witness: concrete normalizations, including the `page = 0`,
`size = 0` and out-of-range-size inputs. -/
theorem claim_C3_witness :
    (PaginationParams.mk none none).pageNorm = 1 ∧
    (PaginationParams.mk none none).sizeNorm = 20 ∧
    1 ≤ (PaginationParams.mk (some 0) (some 0)).pageNorm ∧
    1 ≤ (PaginationParams.mk (some 0) (some 0)).sizeNorm ∧
    (PaginationParams.mk (some 0) (some 200000)).sizeNorm ≤ 100000 :=
  ⟨(claim_C3_pagination_normalized ⟨none, none⟩).2.2.2.1 rfl,
   (claim_C3_pagination_normalized ⟨none, none⟩).2.2.2.2 rfl,
   (claim_C3_pagination_normalized ⟨some 0, some 0⟩).1,
   (claim_C3_pagination_normalized ⟨some 0, some 0⟩).2.1,
   (claim_C3_pagination_normalized ⟨some 0, some 200000⟩).2.2.1⟩

/-! ### Claim C4 -/

/-- C4: whenever `find_all` returns, the reported total is the number
of records satisfying the compiled filter predicate, and it is the
same for every page and size (the count and the page are computed from
the same predicate). -/
theorem claim_C4_total_from_predicate (db : List Resource)
    (f : ResourceFilters) (s : SortParams) (pp pq : PaginationParams)
    (res resq : List Resource) (pg pgq : Pagination)
    (h1 : find_all db pp f s = .ok (res, pg))
    (h2 : find_all db pq f s = .ok (resq, pgq)) :
    pg.total = (db.filter (matchesFilters f)).length ∧
    pg.total = pgq.total := by
  simp only [find_all] at h1 h2
  cases hv : validSortColumn (s.field.getD "created_at") with
  | false =>
    rw [hv] at h1
    simp at h1
  | true =>
    rw [hv] at h1 h2
    simp only [if_true] at h1 h2
    simp only [Except.ok.injEq, Prod.mk.injEq] at h1 h2
    obtain ⟨-, hpg⟩ := h1
    obtain ⟨-, hpgq⟩ := h2
    rw [← hpg, ← hpgq]
    exact ⟨rfl, rfl⟩

/-- C4 witness: the same filter queried with two different paginations
reports the same, correct total. -/
theorem claim_C4_witness :
    (Pagination.new 1 20 1).total =
      ([baseRes 1 "a"].filter
        (matchesFilters ResourceFilters.default)).length ∧
    (Pagination.new 1 20 1).total = (Pagination.new 2 1 1).total :=
  claim_C4_total_from_predicate [baseRes 1 "a"] ResourceFilters.default
    (SortParams.mk none none)
    (PaginationParams.mk none none) (PaginationParams.mk (some 2) (some 1))
    [baseRes 1 "a"] [] (Pagination.new 1 20 1) (Pagination.new 2 1 1)
    (by decide) (by decide)

/-! ### Claim C9 -/

/-- C9: for every id not present in the store, the use-case update and
delete return `NotFound` and leave the stored records unchanged (the
existence check precedes any delegation to the store). -/
theorem claim_C9_notfound_no_mutation (db : List Resource) (id : Int)
    (req : UpdateResourceRequest) (now : Int)
    (h : ∀ r ∈ db, r.id ≠ id) :
    update_resource db id req now =
      (.error (.NotFound "Resource" (toString id)), db) ∧
    delete_resource db id =
      (.error (.NotFound "Resource" (toString id)), db) := by
  have hf : find_by_id db id = none := by
    unfold find_by_id
    rw [List.find?_eq_none]
    intro r hr
    simp [h r hr]
  constructor
  · unfold update_resource
    rw [hf]
  · unfold delete_resource
    rw [hf]

/-- C9 witness: updating and deleting id 2 in a store holding only
id 1 yields `NotFound` and leaves the store untouched. -/
theorem claim_C9_witness :
    update_resource [baseRes 1 "a"] 2 emptyUpdateReq 0 =
      (.error (.NotFound "Resource" (toString (2 : Int))), [baseRes 1 "a"]) ∧
    delete_resource [baseRes 1 "a"] 2 =
      (.error (.NotFound "Resource" (toString (2 : Int))), [baseRes 1 "a"]) :=
  claim_C9_notfound_no_mutation [baseRes 1 "a"] 2 emptyUpdateReq 0 (by decide)

/-! ### Claim C10 -/

/-- C10: the row offset passed to the store by `find_all` is
`((p - 1) * s) mod 2^32` (the multiplication happens in `u32` before
widening), equals the mathematical `(p - 1) * s` only below `2^32`,
wraps at page 43000 with size 100000, and `Pagination::offset` on a
record built with `page = 0` underflows because `Pagination::new` does
not normalize. -/
theorem claim_C10_offset_wraps :
    (∀ pp : PaginationParams, pp.pageNorm < 2 ^ 32 →
      findAllOffset pp = ((pp.pageNorm - 1) * pp.sizeNorm) % 2 ^ 32) ∧
    (∀ pp : PaginationParams, pp.pageNorm < 2 ^ 32 →
      (pp.pageNorm - 1) * pp.sizeNorm < 2 ^ 32 →
      findAllOffset pp = (pp.pageNorm - 1) * pp.sizeNorm) ∧
    (findAllOffset ⟨some 43000, some 100000⟩ = 4932704 ∧
      (43000 - 1) * 100000 ≠ 4932704) ∧
    (∀ size total : Nat,
      (Pagination.new 0 size total).offset = ((2 ^ 32 - 1) * size) % 2 ^ 32) ∧
    (Pagination.new 0 20 0).offset = 4294967276 := by
  have key : ∀ pp : PaginationParams, pp.pageNorm < 2 ^ 32 →
      findAllOffset pp = ((pp.pageNorm - 1) * pp.sizeNorm) % 2 ^ 32 := by
    intro pp h
    have hp1 : 1 ≤ pp.pageNorm := le_max_right _ 1
    unfold findAllOffset u32Mul u32Sub
    have hsub : (pp.pageNorm + (2 ^ 32 - 1 % 2 ^ 32)) % 2 ^ 32 =
        pp.pageNorm - 1 := by omega
    rw [hsub]
  refine ⟨key, ?_, ⟨by decide, by decide⟩, ?_, by decide⟩
  · intro pp h hlt
    rw [key pp h]
    exact Nat.mod_eq_of_lt hlt
  · intro size total
    unfold Pagination.offset Pagination.new u32Mul u32Sub
    have hsub : ((0 : Nat) + (2 ^ 32 - 1 % 2 ^ 32)) % 2 ^ 32 = 2 ^ 32 - 1 := by
      omega
    simp only []
    rw [hsub]

/-- C10 witness: the formula instantiated at small and at wrapping
inputs. -/
theorem claim_C10_witness :
    findAllOffset ⟨some 5, some 10⟩ =
      (((PaginationParams.mk (some 5) (some 10)).pageNorm - 1) *
        (PaginationParams.mk (some 5) (some 10)).sizeNorm) % 2 ^ 32 ∧
    findAllOffset ⟨some 5, some 10⟩ =
      ((PaginationParams.mk (some 5) (some 10)).pageNorm - 1) *
        (PaginationParams.mk (some 5) (some 10)).sizeNorm ∧
    (Pagination.new 0 7 0).offset = ((2 ^ 32 - 1) * 7) % 2 ^ 32 :=
  ⟨claim_C10_offset_wraps.1 _ (by decide),
   claim_C10_offset_wraps.2.1 _ (by decide) (by decide),
   claim_C10_offset_wraps.2.2.2.1 7 0⟩

/-! ### Claim C1 -/

/-- C1 counterexample: a dashboard request with `subscription_id = 1`
against a catalog of two subscriptions reports
`totalSubscriptions = 2`, not `1` — lines 72-73 of
`dashboard_use_cases.rs` always use the global `count_all`. -/
theorem claim_C1_counterexample :
    dashTotalSubs (get_dashboard_summary []
      [⟨1, "s1", none⟩, ⟨2, "s2", none⟩] []
      (some ⟨some 1, none, none, none, none⟩)) = some 2 ∧
    dashTotalSubs (get_dashboard_summary []
      [⟨1, "s1", none⟩, ⟨2, "s2", none⟩] []
      (some ⟨some 1, none, none, none, none⟩)) ≠ some 1 := by
  constructor
  · decide
  · decide

/-- C1 (amended): for every dashboard request, scoped or not,
`totalSubscriptions` and `totalResourceGroups` equal the global
subscription and resource-group counts; no scope filter ever changes
them. -/
theorem claim_C1_totals_always_global (db : List Resource)
    (subs : List Subscription) (rgs : List ResourceGroup)
    (filters : Option DashboardFiltersDto) :
    dashTotalSubs (get_dashboard_summary db subs rgs filters) =
      some subs.length ∧
    dashTotalRgs (get_dashboard_summary db subs rgs filters) =
      some rgs.length := by
  cases filters with
  | none => exact ⟨rfl, rfl⟩
  | some f =>
    cases hs : (f.subscription_id.isSome || f.resource_group_id.isSome) with
    | true =>
      unfold get_dashboard_summary get_filtered_resource_type_counts
        get_filtered_location_counts get_filtered_environment_counts
      dsimp only
      rw [hs]
      simp only [if_true, find_all_dash_ok db f]
      exact ⟨rfl, rfl⟩
    | false =>
      unfold get_dashboard_summary get_filtered_resource_type_counts
        get_filtered_location_counts get_filtered_environment_counts
      dsimp only
      rw [hs]
      simp only [Bool.false_eq_true, if_false]
      exact ⟨rfl, rfl⟩

/-! ### Claim C2 -/

/-- Resource with type `A`, environment `prod`. -/
def exEnvA : Resource :=
  { baseRes 1 "a" with resource_type := "A", environment := some "prod" }

/-- Resource with type `B`, environment `dev`. -/
def exEnvB : Resource :=
  { baseRes 2 "b" with resource_type := "B", environment := some "dev" }

/-- A dashboard filter with only `environment` set. -/
def exEnvFilter : DashboardFiltersDto :=
  ⟨none, none, none, some "prod", none⟩

/-- A dashboard filter with `subscription_id` and `environment` set. -/
def exScopedFilter : DashboardFiltersDto :=
  ⟨some 1, none, none, some "prod", none⟩

/-- C2 counterexample: with only the `environment` filter set, the
per-type counts are NOT the grouped counts over the matching resources
(the code ignores an environment-only filter and returns the global
counts, which here still contain type `B` of the non-matching
resource). -/
theorem claim_C2_counterexample :
    ¬ IsGroupCountsDesc
      (([exEnvA, exEnvB].filter
        (matchesFilters (dashResourceFilters exEnvFilter))).map
          (fun r => r.resource_type))
      (dashTypePairs (get_dashboard_summary [exEnvA, exEnvB] [] []
        (some exEnvFilter))) := by
  decide

/-- C2 (amended): only when `subscription_id` or `resource_group_id`
is set (and at most 100000 resources match) is each dimension's count
list the grouped counts — sorted by count descending — over the
resources matching the conjunction of the subscription, resource-group
and environment filters; with neither set (e.g. an environment-only
request) every dimension falls back to the unfiltered global counts. -/
theorem claim_C2_scoped_dimension_counts (db : List Resource)
    (subs : List Subscription) (rgs : List ResourceGroup)
    (f : DashboardFiltersDto) :
    ((f.subscription_id.isSome || f.resource_group_id.isSome) = true →
      (db.filter (matchesFilters (dashResourceFilters f))).length ≤ 100000 →
      (IsGroupCountsDesc
        ((db.filter (matchesFilters (dashResourceFilters f))).map
          (fun r => r.resource_type))
        (dashTypePairs (get_dashboard_summary db subs rgs (some f))) ∧
       IsGroupCountsDesc
        ((db.filter (matchesFilters (dashResourceFilters f))).map
          (fun r => r.location))
        (dashLocationPairs (get_dashboard_summary db subs rgs (some f))) ∧
       IsGroupCountsDesc
        ((db.filter (matchesFilters (dashResourceFilters f))).map
          (fun r => r.environment.getD "Unknown"))
        (dashEnvPairs (get_dashboard_summary db subs rgs (some f))))) ∧
    (f.subscription_id = none → f.resource_group_id = none →
      dashTypePairs (get_dashboard_summary db subs rgs (some f)) =
        count_by_type db ∧
      dashLocationPairs (get_dashboard_summary db subs rgs (some f)) =
        count_by_location db ∧
      dashEnvPairs (get_dashboard_summary db subs rgs (some f)) =
        count_by_environment db) := by
  constructor
  · intro hs hlen
    obtain ⟨ht, hl, he⟩ := dash_pairs_scoped db subs rgs f hs
    refine ⟨?_, ?_, ?_⟩
    · rw [ht]; exact groupCounts_sorted_take _ _ hlen
    · rw [hl]; exact groupCounts_sorted_take _ _ hlen
    · rw [he]; exact groupCounts_sorted_take _ _ hlen
  · intro h1 h2
    exact dash_pairs_unscoped db subs rgs f h1 h2

/-- C2 witness: a subscription-scoped request over a two-resource
catalog, and an environment-only request falling back to global
counts. -/
theorem claim_C2_witness :
    (IsGroupCountsDesc
      (([exEnvA, exEnvB].filter
        (matchesFilters (dashResourceFilters exScopedFilter))).map
          (fun r => r.resource_type))
      (dashTypePairs (get_dashboard_summary [exEnvA, exEnvB] [] []
        (some exScopedFilter))) ∧
     IsGroupCountsDesc
      (([exEnvA, exEnvB].filter
        (matchesFilters (dashResourceFilters exScopedFilter))).map
          (fun r => r.location))
      (dashLocationPairs (get_dashboard_summary [exEnvA, exEnvB] [] []
        (some exScopedFilter))) ∧
     IsGroupCountsDesc
      (([exEnvA, exEnvB].filter
        (matchesFilters (dashResourceFilters exScopedFilter))).map
          (fun r => r.environment.getD "Unknown"))
      (dashEnvPairs (get_dashboard_summary [exEnvA, exEnvB] [] []
        (some exScopedFilter)))) ∧
    dashTypePairs (get_dashboard_summary [exEnvA, exEnvB] [] []
      (some exEnvFilter)) = count_by_type [exEnvA, exEnvB] :=
  ⟨(claim_C2_scoped_dimension_counts [exEnvA, exEnvB] [] []
      exScopedFilter).1 (by decide) (by decide),
   ((claim_C2_scoped_dimension_counts [exEnvA, exEnvB] [] []
      exEnvFilter).2 rfl rfl).1⟩

/-! ### Claim C5 -/

/-- C5: whenever `find_all` runs a query with a search term, the
returned records are pairwise ordered by relevance bucket (1 exact,
2 starts-with, 3 contains, 4 other, case-insensitive) and, within
equal buckets, by the requested sort field and direction (which
default to creation time ascending). -/
theorem claim_C5_search_relevance_order (db : List Resource)
    (pp : PaginationParams) (f : ResourceFilters) (s : SortParams)
    (q : String) (res : List Resource) (pg : Pagination)
    (hq : f.search = some q)
    (h : find_all db pp f s = .ok (res, pg)) :
    List.Pairwise (fun a b =>
      bucket q a < bucket q b ∨
      (bucket q a = bucket q b ∧ rowLe s a b = true)) res := by
  simp only [find_all] at h
  cases hv : validSortColumn (s.field.getD "created_at") with
  | false =>
    rw [hv] at h
    simp at h
  | true =>
    rw [hv] at h
    simp only [if_true, Except.ok.injEq, Prod.mk.injEq] at h
    obtain ⟨hres, -⟩ := h
    subst hres
    rw [hq]
    dsimp only
    have hsorted := sortByLe_pairwise (searchLe q s) (searchLe_total q s)
      (searchLe_trans q s) (db.filter (matchesFilters f))
    have hsub : ((((sortByLe (searchLe q s)
        (db.filter (matchesFilters f)))).drop (findAllOffset pp)).take
          pp.sizeNorm).Sublist
        (sortByLe (searchLe q s) (db.filter (matchesFilters f))) :=
      (List.take_sublist _ _).trans (List.drop_sublist _ _)
    have hpw := List.Pairwise.sublist hsub hsorted
    exact hpw.imp (fun hab => by
      simpa only [boolRel, searchLe, Bool.or_eq_true, Bool.and_eq_true,
        decide_eq_true_eq] using hab)

/-- C5 witness: searching `vm1` over `test-vm1`, `vm10`, `vm1` returns
them in the order exact, starts-with, contains. -/
theorem claim_C5_witness :
    List.Pairwise (fun a b =>
      bucket "vm1" a < bucket "vm1" b ∨
      (bucket "vm1" a = bucket "vm1" b ∧
        rowLe (SortParams.mk none none) a b = true))
      [baseRes 3 "vm1", baseRes 2 "vm10", baseRes 1 "test-vm1"] :=
  claim_C5_search_relevance_order
    [baseRes 1 "test-vm1", baseRes 2 "vm10", baseRes 3 "vm1"]
    (PaginationParams.mk none none)
    { ResourceFilters.default with search := some "vm1" }
    (SortParams.mk none none) "vm1"
    [baseRes 3 "vm1", baseRes 2 "vm10", baseRes 1 "test-vm1"]
    (Pagination.new 1 20 3) rfl (by decide)

/-! ### Claim C6 -/

/-- A tags filter whose only token is malformed (no `:`). -/
def exTagFilter : ResourceFilters :=
  { ResourceFilters.default with tags := some "abc" }

/-- A tags filter with one well-formed token. -/
def exTagFilter2 : ResourceFilters :=
  { ResourceFilters.default with tags := some "Env:prod" }

/-- A resource tagged `Env = production`. -/
def exTagRes : Resource :=
  { baseRes 1 "a" with tags_json := [("Env", "production")] }

/-- C6 counterexample: with the tags filter `"abc"` every token is
malformed, so no parsed pair exists and the claimed predicate
("satisfies iff some parsed pair matches") is unsatisfiable — yet the
code pushes no tag condition at all and the resource matches. -/
theorem claim_C6_counterexample :
    matchesFilters exTagFilter (baseRes 1 "a") = true ∧
    ¬ ∃ p ∈ parseTagPairs "abc", tagPairMatch (baseRes 1 "a") p = true := by
  constructor
  · decide
  · decide

/-- C6 (amended): the tags filter splits on commas, parses each token
on its `:` with trimming, silently drops malformed tokens, and — when
at least one pair was parsed — a resource passes iff some parsed pair
has its key in the tag map with a stored value containing the given
value case-insensitively, AND-combined with the remaining field
predicates; when every token is malformed the tags filter imposes no
constraint at all. -/
theorem claim_C6_tags_predicate (f : ResourceFilters) (ts : String)
    (r : Resource) (hts : f.tags = some ts) :
    matchesFilters f r = true ↔
      (matchesFilters { f with tags := none } r = true ∧
        (parseTagPairs ts = [] ∨
          ∃ p ∈ parseTagPairs ts, tagPairMatch r p = true)) := by
  unfold matchesFilters
  rw [hts]
  by_cases hp : parseTagPairs ts = []
  · simp [hp, Bool.and_eq_true]
  · have hne : (parseTagPairs ts).isEmpty = false := by
      cases hpp : parseTagPairs ts with
      | nil => exact absurd hpp hp
      | cons a l => rfl
    simp [hne, hp, Bool.and_eq_true, List.any_eq_true]

/-- C6 witness: the token `Env:prod` against a resource tagged
`Env = production` (case-insensitive containment matches). -/
theorem claim_C6_witness :
    matchesFilters exTagFilter2 exTagRes = true ↔
      (matchesFilters { exTagFilter2 with tags := none } exTagRes = true ∧
        (parseTagPairs "Env:prod" = [] ∨
          ∃ p ∈ parseTagPairs "Env:prod", tagPairMatch exTagRes p = true)) :=
  claim_C6_tags_predicate exTagFilter2 "Env:prod" exTagRes rfl

/-! ### Claim C7 -/

/-- The per-entry properties the suggestion scan guarantees: the pair
comes from some resource's tag map, the display is `key:value`, and
the lower-cased key or value contains the search term. -/
def suggProps (rs : List Resource) (term : String) (s : TagSuggestion) :
    Prop :=
  (∃ r ∈ rs, (s.key, s.value) ∈ r.tags_json) ∧
  s.display = s.key ++ ":" ++ s.value ∧
  (strContains (strLower s.key) term = true ∨
   strContains (strLower s.value) term = true)

/-- Invariant of the suggestion accumulator: the seen set is exactly
the `key:value` strings of the collected entries, it has no
duplicates, and every collected entry satisfies `suggProps`. -/
def suggInv (rs : List Resource) (term : String)
    (acc : List TagSuggestion × List String) : Prop :=
  acc.2 = acc.1.map (fun s => s.key ++ ":" ++ s.value) ∧
  acc.2.Nodup ∧
  ∀ s ∈ acc.1, suggProps rs term s

theorem collectTags_inv (rs : List Resource) (term : String)
    (r : Resource) (hr : r ∈ rs) :
    ∀ (tags : List (String × String)), (∀ kv ∈ tags, kv ∈ r.tags_json) →
    ∀ acc, suggInv rs term acc →
    suggInv rs term (collectTags term tags acc) := by
  intro tags
  induction tags with
  | nil =>
    intro _ acc h
    exact h
  | cons kv t ih =>
    intro hsub acc hinv
    show suggInv rs term (collectTags term t _)
    refine ih (fun kv2 h2 => hsub kv2 (List.mem_cons_of_mem _ h2)) _ ?_
    obtain ⟨hmap, hnd, hall⟩ := hinv
    by_cases hc : (!(acc.2.contains (kv.1 ++ ":" ++ kv.2)) &&
        (strContains (strLower kv.1) term ||
         strContains (strLower kv.2) term)) = true
    · rw [if_pos hc]
      simp only [Bool.and_eq_true, Bool.not_eq_true', Bool.or_eq_true] at hc
      obtain ⟨hseen, hmatch⟩ := hc
      have hnotmem : (kv.1 ++ ":" ++ kv.2) ∉ acc.2 := by
        intro hmem
        have hcm : acc.2.contains (kv.1 ++ ":" ++ kv.2) = true := by
          simpa using hmem
        rw [hcm] at hseen
        cases hseen
      refine ⟨?_, ?_, ?_⟩
      · simp [hmap]
      · rw [List.nodup_append]
        exact ⟨hnd, List.nodup_singleton _,
          by intro x hx hx2; simp at hx2; subst hx2; exact hnotmem hx⟩
      · intro s hs
        rcases List.mem_append.mp hs with hs1 | hs2
        · exact hall s hs1
        · simp only [List.mem_singleton] at hs2
          subst hs2
          exact ⟨⟨r, hr, hsub kv (List.mem_cons_self _ _)⟩, rfl, hmatch⟩
    · rw [if_neg hc]
      exact ⟨hmap, hnd, hall⟩

theorem collectSuggestions_inv (term : String) (rs : List Resource) :
    suggInv rs term (collectSuggestions term rs) := by
  have gen : ∀ rs2 : List Resource, (∀ r ∈ rs2, r ∈ rs) →
      ∀ acc, suggInv rs term acc →
      suggInv rs term
        (rs2.foldl (fun acc r => collectTags term r.tags_json acc) acc) := by
    intro rs2
    induction rs2 with
    | nil =>
      intro _ acc h
      exact h
    | cons r t ih =>
      intro hsub acc hinv
      exact ih (fun x hx => hsub x (List.mem_cons_of_mem _ hx)) _
        (collectTags_inv rs term r (hsub r (List.mem_cons_self _ _))
          r.tags_json (fun kv h => h) acc hinv)
  exact gen rs (fun r h => h) ([], [])
    ⟨rfl, List.nodup_nil, fun s h => absurd h (List.not_mem_nil s)⟩

theorem suggestionLe_imp (term : String) (a b : TagSuggestion)
    (hab : suggestionLe term a b = true) :
    (isExactTagMatch term a = true ∧ isExactTagMatch term b = false) ∨
    (isExactTagMatch term a = isExactTagMatch term b ∧
      strLe a.display b.display = true) := by
  unfold suggestionLe at hab
  cases hae : isExactTagMatch term a <;>
    cases hbe : isExactTagMatch term b <;>
    rw [hae, hbe] at hab <;> simp [hae, hbe] at hab ⊢ <;> exact hab

/-- C7: the suggestion endpoint returns at most 10 entries; every
entry's `(key, value)` occurs in some resource's tag map, appears
exactly once (`key:value` displays are duplicate-free), and has its
lower-cased key or value containing the lower-cased query; the
sequence places exact key/value matches before partial matches with
ties broken by the lexicographic order of `key:value`. -/
theorem claim_C7_suggestions (q : Option String) (rs : List Resource) :
    (get_tag_suggestions q rs).length ≤ 10 ∧
    (∀ s ∈ get_tag_suggestions q rs,
      (∃ r ∈ rs, (s.key, s.value) ∈ r.tags_json) ∧
      s.display = s.key ++ ":" ++ s.value ∧
      (strContains (strLower s.key) (strLower (q.getD "")) = true ∨
       strContains (strLower s.value) (strLower (q.getD "")) = true)) ∧
    ((get_tag_suggestions q rs).map (fun s => s.display)).Nodup ∧
    List.Pairwise (fun a b =>
      (isExactTagMatch (strLower (q.getD "")) a = true ∧
       isExactTagMatch (strLower (q.getD "")) b = false) ∨
      (isExactTagMatch (strLower (q.getD "")) a =
        isExactTagMatch (strLower (q.getD "")) b ∧
       strLe a.display b.display = true)) (get_tag_suggestions q rs) := by
  obtain ⟨hmap, hnd, hall⟩ :=
    collectSuggestions_inv (strLower (q.getD "")) rs
  have hperm := sortByLe_perm (suggestionLe (strLower (q.getD "")))
    (collectSuggestions (strLower (q.getD "")) rs).1
  have hresult : get_tag_suggestions q rs =
      (sortByLe (suggestionLe (strLower (q.getD "")))
        (collectSuggestions (strLower (q.getD "")) rs).1).take 10 := rfl
  refine ⟨?_, ?_, ?_, ?_⟩
  · rw [hresult, List.length_take]
    exact Nat.min_le_left _ _
  · intro s hs
    rw [hresult] at hs
    exact hall s (hperm.mem_iff.mp (List.mem_of_mem_take hs))
  · have hdisp : (collectSuggestions (strLower (q.getD "")) rs).1.map
        (fun s => s.display) =
        (collectSuggestions (strLower (q.getD "")) rs).1.map
          (fun s => s.key ++ ":" ++ s.value) :=
      List.map_congr_left (fun s hs => (hall s hs).2.1)
    have hnd2 : ((collectSuggestions (strLower (q.getD "")) rs).1.map
        (fun s => s.display)).Nodup := by
      rw [hdisp, ← hmap]
      exact hnd
    have hnd3 : ((sortByLe (suggestionLe (strLower (q.getD "")))
        (collectSuggestions (strLower (q.getD "")) rs).1).map
          (fun s => s.display)).Nodup :=
      ((hperm.map _).nodup_iff).mpr hnd2
    rw [hresult]
    exact List.Nodup.sublist
      (List.Sublist.map _ (List.take_sublist _ _)) hnd3
  · have hsorted := sortByLe_pairwise
      (suggestionLe (strLower (q.getD "")))
      (suggestionLe_total _) (suggestionLe_trans _)
      (collectSuggestions (strLower (q.getD "")) rs).1
    have hpw := List.Pairwise.sublist (List.take_sublist 10 _) hsorted
    rw [hresult]
    exact hpw.imp (fun hab => suggestionLe_imp _ _ _ hab)
